import Mathlib

/-!
Verification of the Subscription Hub application against its specification.
The data model and operations below are shallow embeddings of the TypeScript
source: the drizzle table rows become structures, the database becomes an
explicit record of row lists, and each storage method or route handler becomes
a pure function over that state. Clock reads (new Date()) and generated column
defaults (gen_random_uuid, now()) enter as explicit parameters.
-/

namespace SubscriptionHub

/-- Instants in milliseconds since the Unix epoch, as produced by the JavaScript
Date.getTime. -/
abbrev Timestamp := Int

/-- Row of the users table (shared/schema.ts). -/
structure User where
  id : String
  email : String
  name : Option String
  createdAt : Timestamp
deriving Repr, DecidableEq

/-- Row of the subscriptions table (shared/schema.ts). Timestamp columns are
carried as instants; the cost decimal is carried in its string form, exactly as
the schema stores it. -/
structure Subscription where
  id : String
  name : String
  category : String
  cost : String
  billingCycle : String
  renewalDate : Timestamp
  expirationDate : Option Timestamp
  status : String
  logoUrl : Option String
  description : Option String
  lastUsed : Option Timestamp
  userEmail : String
deriving Repr, DecidableEq

/-- Pricing plan entry of the availableServices plans column (shared/schema.ts).
The price is a JavaScript number used only through toString, so it is carried
as its decimal literal. -/
structure PricingPlan where
  id : String
  name : String
  price : String
  billingCycle : String
  features : List String
deriving Repr, DecidableEq

/-- Row of the availableServices marketplace table (shared/schema.ts). -/
structure AvailableService where
  id : String
  name : String
  category : String
  logoUrl : String
  description : String
  basePrice : String
  plans : List PricingPlan
  isPopular : Bool
  features : List String
  launchUrl : Option String
  createdAt : Timestamp
deriving Repr, DecidableEq

/-- Row of the serviceLaunches audit table (shared/schema.ts). -/
structure ServiceLaunch where
  id : String
  subscriptionId : String
  userEmail : String
  serviceName : String
  launchedAt : Timestamp
deriving Repr, DecidableEq

/-- The relational state the storage layer operates on: one list of rows per
table. -/
structure DB where
  users : List User
  subscriptions : List Subscription
  availableServices : List AvailableService
  serviceLaunches : List ServiceLaunch
deriving Repr, DecidableEq

/-- DatabaseStorage.getAllSubscriptions: select the subscriptions rows whose
userEmail equals the caller's email. -/
def getAllSubscriptions (db : DB) (userEmail : String) : List Subscription :=
  db.subscriptions.filter (fun s => s.userEmail == userEmail)

/-- One day in milliseconds. -/
def msPerDay : Int := 86400000

/-- Advancing an instant by a number of days, as Date.setDate(getDate() + n)
does at millisecond granularity. -/
def addDays (t : Timestamp) (days : Int) : Timestamp := t + days * msPerDay

/-- DatabaseStorage.getExpiringSubscriptions: the caller's rows with a non-null
expirationDate inside the inclusive window from today to today + daysAhead.
The source reads the clock with new Date(); the embedding passes that instant
as the parameter today. -/
def getExpiringSubscriptions (db : DB) (userEmail : String) (daysAhead : Int)
    (today : Timestamp) : List Subscription :=
  let cutoffDate := addDays today daysAhead
  db.subscriptions.filter (fun s =>
    s.userEmail == userEmail &&
      match s.expirationDate with
      | some d => decide (today ≤ d) && decide (d ≤ cutoffDate)
      | none => false)

/-- C1: for every table state and owner email, getAllSubscriptions returns
exactly the rows owned by that email, so cross-tenant isolation holds even when
ids of different owners coincide. -/
theorem getAllSubscriptions_cross_tenant_isolation (db : DB) (e : String)
    (s : Subscription) :
    s ∈ getAllSubscriptions db e ↔ s ∈ db.subscriptions ∧ s.userEmail = e := by
  simp [getAllSubscriptions, List.mem_filter]

/-- C2: for every table state, owner email, daysAhead and clock instant, a row
is returned by getExpiringSubscriptions exactly when it belongs to the owner
and its expirationDate is non-null and lies in the inclusive window
[today, today + daysAhead]; null and strictly past expiration dates never
appear. -/
theorem getExpiringSubscriptions_window (db : DB) (e : String) (d : Int)
    (today : Timestamp) (s : Subscription) :
    s ∈ getExpiringSubscriptions db e d today ↔
      s ∈ db.subscriptions ∧ s.userEmail = e ∧
        ∃ x, s.expirationDate = some x ∧ today ≤ x ∧ x ≤ addDays today d := by
  cases h : s.expirationDate with
  | none => simp [getExpiringSubscriptions, List.mem_filter, h]
  | some x =>
    simp only [getExpiringSubscriptions, List.mem_filter, h, Bool.and_eq_true,
      beq_iff_eq, decide_eq_true_eq, Option.some.injEq]
    constructor
    · rintro ⟨hmem, he, h1, h2⟩
      exact ⟨hmem, he, x, rfl, h1, h2⟩
    · rintro ⟨hmem, he, y, hy, h1, h2⟩
      cases hy
      exact ⟨hmem, he, h1, h2⟩

/-- DatabaseStorage.deleteSubscription: delete the rows matching both the id
and the caller's email, reporting whether any row was removed. -/
def deleteSubscription (db : DB) (id : String) (userEmail : String) : Bool × DB :=
  (decide (0 < (db.subscriptions.filter
      (fun s => s.id == id && s.userEmail == userEmail)).length),
   { db with subscriptions :=
       db.subscriptions.filter (fun s => !(s.id == id && s.userEmail == userEmail)) })

/-- DELETE /api/subscriptions/:id handler (server/routes.ts): 204 when a row
was deleted, 404 otherwise. -/
def deleteSubscriptionHandler (db : DB) (currentUserEmail : String) (id : String) :
    Nat × DB :=
  let r := deleteSubscription db id currentUserEmail
  if r.1 then (204, r.2) else (404, r.2)

/-- Two rows of a table with pairwise-distinct ids that share an id are the
same row. -/
theorem eq_of_mem_of_id_nodup {l : List Subscription}
    (hids : (l.map Subscription.id).Nodup) {a b : Subscription}
    (ha : a ∈ l) (hb : b ∈ l) (h : a.id = b.id) : a = b :=
  List.inj_on_of_nodup_map hids ha hb h

/-- With pairwise-distinct ids, dropping the rows that match an owned id is
exactly erasing the unique matching row. -/
theorem filter_unmatched_eq_erase {l : List Subscription} {i e : String}
    (hids : (l.map Subscription.id).Nodup) {s0 : Subscription} (hmem : s0 ∈ l)
    (hid : s0.id = i) (hem : s0.userEmail = e) :
    l.filter (fun s => !(s.id == i && s.userEmail == e)) = l.erase s0 := by
  induction l with
  | nil => cases hmem
  | cons x xs ih =>
    rw [List.map_cons, List.nodup_cons] at hids
    by_cases hx : x = s0
    · subst hx
      have h1 : xs.filter (fun s => !(s.id == i && s.userEmail == e)) = xs := by
        apply List.filter_eq_self.mpr
        intro t ht
        simp only [Bool.not_eq_true', Bool.and_eq_false_iff, beq_eq_false_iff_ne]
        by_contra hc
        push_neg at hc
        exact hids.1 (hid ▸ hc.1 ▸ List.mem_map_of_mem Subscription.id ht)
      rw [List.filter_cons, if_neg (by simp [hid, hem]), h1, List.erase_cons_head]
    · have hs0 : s0 ∈ xs := by
        rcases List.mem_cons.mp hmem with h | h
        · exact absurd h.symm hx
        · exact h
      have hpx : (!(x.id == i && x.userEmail == e)) = true := by
        simp only [Bool.not_eq_true', Bool.and_eq_false_iff, beq_eq_false_iff_ne]
        by_contra hc
        push_neg at hc
        exact hids.1 (hc.1 ▸ hid ▸ List.mem_map_of_mem Subscription.id hs0)
      rw [List.filter_cons, if_pos hpx, ih hids.2 hs0,
        List.erase_cons_tail (by simp [hx])]

/-- The DELETE handler's outcome written as one conditional over the table. -/
theorem deleteSubscriptionHandler_eq (db : DB) (e i : String) :
    deleteSubscriptionHandler db e i =
      ((if 0 < (db.subscriptions.filter
            (fun s => s.id == i && s.userEmail == e)).length
          then 204 else 404 : Nat),
       { db with subscriptions :=
          db.subscriptions.filter (fun s => !(s.id == i && s.userEmail == e)) }) := by
  simp only [deleteSubscriptionHandler, deleteSubscription, decide_eq_true_eq]
  split_ifs with h
  · rfl
  · rfl

/-- C5: the DELETE handler answers 404 and leaves the table unchanged when the
caller owns no row with the requested id, and answers 204 removing exactly the
matching row when one exists, row ids being pairwise distinct as the primary
key guarantees. -/
theorem deleteSubscription_handler_spec (db : DB) (e i : String)
    (hids : (db.subscriptions.map Subscription.id).Nodup) :
    ((∀ s ∈ db.subscriptions, ¬(s.id = i ∧ s.userEmail = e)) →
        deleteSubscriptionHandler db e i = (404, db)) ∧
    (∀ s0 ∈ db.subscriptions, s0.id = i → s0.userEmail = e →
        deleteSubscriptionHandler db e i =
          (204, { db with subscriptions := db.subscriptions.erase s0 })) := by
  constructor
  · intro h
    have hfil : db.subscriptions.filter (fun s => s.id == i && s.userEmail == e) = [] := by
      apply List.filter_eq_nil_iff.mpr
      intro s hs
      simp only [Bool.and_eq_true, beq_iff_eq]
      exact fun hc => h s hs hc
    have hkeep : db.subscriptions.filter
        (fun s => !(s.id == i && s.userEmail == e)) = db.subscriptions := by
      apply List.filter_eq_self.mpr
      intro s hs
      simp only [Bool.not_eq_true', Bool.and_eq_false_iff, beq_eq_false_iff_ne]
      rcases Decidable.em (s.id = i) with h1 | h1
      · exact Or.inr fun h2 => h s hs ⟨h1, h2⟩
      · exact Or.inl h1
    rw [deleteSubscriptionHandler_eq, hfil, hkeep]
    simp
  · intro s0 hmem hid hem
    have hin : s0 ∈ db.subscriptions.filter (fun s => s.id == i && s.userEmail == e) := by
      simp [List.mem_filter, hmem, hid, hem]
    have hpos : 0 < (db.subscriptions.filter
        (fun s => s.id == i && s.userEmail == e)).length :=
      List.length_pos_of_mem hin
    rw [deleteSubscriptionHandler_eq, filter_unmatched_eq_erase hids hmem hid hem,
      if_pos hpos]

/-- Demonstration rows used by the closed witnesses below. -/
def demoSub : Subscription :=
  { id := "s1", name := "Netflix", category := "Streaming", cost := "15.99",
    billingCycle := "monthly", renewalDate := 1735689600000,
    expirationDate := some 1738368000000, status := "active", logoUrl := none,
    description := none, lastUsed := none, userEmail := "a@x.com" }

/-- A one-subscription table owned by a@x.com. -/
def demoDB : DB :=
  { users := [], subscriptions := [demoSub], availableServices := [],
    serviceLaunches := [] }

/-- Closed witness for C5: deleting the one owned row of the demonstration
table answers 204 and erases exactly that row. -/
theorem deleteSubscription_handler_spec_witness :
    deleteSubscriptionHandler demoDB "a@x.com" "s1" =
      (204, { demoDB with subscriptions := demoDB.subscriptions.erase demoSub }) :=
  (deleteSubscription_handler_spec demoDB "a@x.com" "s1" (by decide)).2
    demoSub (by simp [demoDB]) rfl rfl

/-- DatabaseStorage.getUserByEmail: the first users row with the given email
(the email column carries a unique constraint). -/
def getUserByEmail (db : DB) (email : String) : Option User :=
  db.users.find? (fun u => u.email == email)

/-- DatabaseStorage.createUser: insert a users row; the generated column
defaults (id, createdAt) enter as the parameters newId and now. -/
def createUser (db : DB) (newId : String) (now : Timestamp) (email : String)
    (name : Option String) : User × DB :=
  let u : User := { id := newId, email := email, name := name, createdAt := now }
  (u, { db with users := db.users ++ [u] })

/-- JavaScript truthiness default a || b over an optional string: undefined and
the empty string both fall back to the default. -/
def strOrDefault (name : Option String) (deflt : String) : String :=
  match name with
  | some s => if s = "" then deflt else s
  | none => deflt

/-- Server-side session record: the data loginUser stores after regenerating
the session. -/
structure SessionData where
  userId : Option String
  user : Option User
  isAuthenticated : Bool
deriving Repr, DecidableEq

/-- loginUser (server/auth.ts): look the user up by email, create it on first
login with the name defaulting to "User", then regenerate the session and
store the identity in it. The embedding models a successful login: the
returned user and fresh session data, and the users-table effect. -/
def loginUser (db : DB) (newId : String) (now : Timestamp) (email : String)
    (name : Option String) : (User × SessionData) × DB :=
  let r : User × DB :=
    match getUserByEmail db email with
    | some u => (u, db)
    | none => createUser db newId now email (some (strOrDefault name "User"))
  ((r.1, { userId := some r.1.id, user := some r.1, isAuthenticated := true }), r.2)

/-- Fresh-id, clock and name inputs of one login call. -/
structure LoginInput where
  newId : String
  now : Timestamp
  name : Option String
deriving Repr, DecidableEq

/-- Table state after a sequence of login calls for one email. -/
def loginSeq (db : DB) (email : String) : List LoginInput → DB
  | [] => db
  | p :: ps => loginSeq (loginUser db p.newId p.now email p.name).2 email ps

/-- Number of users rows carrying the given email. -/
def countByEmail (db : DB) (email : String) : Nat :=
  (db.users.filter (fun u => u.email == email)).length

/-- A table with no row for the email answers none to getUserByEmail. -/
theorem getUserByEmail_eq_none_of_count_zero {db : DB} {e : String}
    (h0 : countByEmail db e = 0) : getUserByEmail db e = none := by
  have hnil : db.users.filter (fun u => u.email == e) = [] :=
    List.length_eq_zero.mp h0
  apply List.find?_eq_none.mpr
  intro u hu hb
  have : u ∈ db.users.filter (fun u => u.email == e) :=
    List.mem_filter.mpr ⟨hu, hb⟩
  rw [hnil] at this
  cases this

/-- A table with a row for the email answers some user to getUserByEmail. -/
theorem getUserByEmail_isSome_of_count_pos {db : DB} {e : String}
    (h1 : 0 < countByEmail db e) : ∃ u, getUserByEmail db e = some u := by
  rcases List.length_pos_iff_exists_mem.mp h1 with ⟨u, hu⟩
  rcases List.mem_filter.mp hu with ⟨hmem, hb⟩
  have : (db.users.find? (fun u => u.email == e)).isSome :=
    List.find?_isSome.mpr ⟨u, hmem, hb⟩
  rcases Option.isSome_iff_exists.mp this with ⟨v, hv⟩
  exact ⟨v, hv⟩

/-- A first-time login creates the user: the count for that email becomes 1. -/
theorem countByEmail_after_first_login {db : DB} {e : String}
    (h0 : countByEmail db e = 0) (nid : String) (now : Timestamp)
    (nm : Option String) :
    countByEmail (loginUser db nid now e nm).2 e = 1 := by
  have hnil : db.users.filter (fun u => u.email == e) = [] :=
    List.length_eq_zero.mp h0
  simp only [loginUser, getUserByEmail_eq_none_of_count_zero h0, createUser,
    countByEmail, List.filter_append, hnil, List.nil_append]
  simp

/-- A login that finds the user leaves the table untouched and returns the
user found. -/
theorem loginUser_found {db : DB} {e : String} {u : User}
    (hu : getUserByEmail db e = some u) (nid : String) (now : Timestamp)
    (nm : Option String) :
    loginUser db nid now e nm =
      ((u, { userId := some u.id, user := some u, isAuthenticated := true }), db) := by
  simp [loginUser, hu]

/-- Any sequence of logins over a table that already holds a row for the email
leaves the table untouched. -/
theorem loginSeq_stable {db : DB} {e : String} (h1 : 0 < countByEmail db e) :
    ∀ ps : List LoginInput, loginSeq db e ps = db := by
  intro ps
  induction ps with
  | nil => rfl
  | cons p ps ih =>
    rcases getUserByEmail_isSome_of_count_pos h1 with ⟨u, hu⟩
    simp only [loginSeq]
    rw [loginUser_found hu]
    exact ih

/-- C4: a first-time login for an email creates exactly one User with that
email, and after any nonempty sequence of logins exactly one such User exists;
every further login leaves the table unchanged and returns that unique user. -/
theorem login_first_time_unique_identity (db : DB) (e : String) (p : LoginInput)
    (ps : List LoginInput) (h0 : countByEmail db e = 0) :
    countByEmail (loginSeq db e (p :: ps)) e = 1 ∧
    ∀ q : LoginInput,
      (loginUser (loginSeq db e (p :: ps)) q.newId q.now e q.name).2 =
        loginSeq db e (p :: ps) ∧
      ∃ u, getUserByEmail (loginSeq db e (p :: ps)) e = some u ∧
        (loginUser (loginSeq db e (p :: ps)) q.newId q.now e q.name).1.1 = u ∧
        u ∈ (loginSeq db e (p :: ps)).users ∧ u.email = e := by
  have h1 : countByEmail (loginUser db p.newId p.now e p.name).2 e = 1 :=
    countByEmail_after_first_login h0 p.newId p.now p.name
  have hseq : loginSeq db e (p :: ps) = (loginUser db p.newId p.now e p.name).2 := by
    simp only [loginSeq]
    exact loginSeq_stable (by omega) ps
  have h2 : 0 < countByEmail (loginUser db p.newId p.now e p.name).2 e := by omega
  rw [hseq]
  refine ⟨h1, fun q => ?_⟩
  rcases getUserByEmail_isSome_of_count_pos h2 with ⟨u, hu⟩
  rw [loginUser_found hu]
  refine ⟨rfl, u, hu, rfl, List.mem_of_find?_eq_some hu, ?_⟩
  have := List.find?_some hu
  simpa using this

/-- Closed witness for C4: two logins for a fresh email leave exactly one user
row, and a third login returns a user with that email without touching the
table. -/
theorem login_first_time_unique_identity_witness :
    countByEmail (loginSeq demoDB "b@x.com"
        [⟨"u1", 0, some "Bea"⟩, ⟨"u2", 5, none⟩]) "b@x.com" = 1 ∧
    (loginUser (loginSeq demoDB "b@x.com"
        [⟨"u1", 0, some "Bea"⟩, ⟨"u2", 5, none⟩]) "u3" 9 "b@x.com" none).2 =
      loginSeq demoDB "b@x.com" [⟨"u1", 0, some "Bea"⟩, ⟨"u2", 5, none⟩] ∧
    (loginUser (loginSeq demoDB "b@x.com"
        [⟨"u1", 0, some "Bea"⟩, ⟨"u2", 5, none⟩]) "u3" 9 "b@x.com" none).1.1.email =
      "b@x.com" := by
  have h := login_first_time_unique_identity demoDB "b@x.com" ⟨"u1", 0, some "Bea"⟩
    [⟨"u2", 5, none⟩] (by decide)
  rcases h.2 ⟨"u3", 9, none⟩ with ⟨h2, u, hu, hret, humem, hemail⟩
  refine ⟨h.1, h2, ?_⟩
  rw [hret]
  exact hemail

/-- Outcome of the per-request user lookup that attachUser performs through
its storage argument: a user, no user, or a thrown error. -/
inductive LookupOutcome
  | ok (u : Option User)
  | err
deriving Repr, DecidableEq

/-- What attachUser leaves on the request before calling next: the resolved
authentication flag and current user, the session (none when destroyed), and
the fact that next ran. -/
structure AttachResult where
  isAuthenticated : Bool
  currentUser : Option User
  session : Option SessionData
  nextCalled : Bool
deriving Repr, DecidableEq

/-- attachUser middleware (server/auth.ts): start anonymous; when the session
carries a truthy userId and isAuthenticated, resolve the user through storage.
A found user is attached and kept fresh in the session; a missing user or a
lookup error destroys the session and the request stays anonymous. The
middleware always reaches next. The storage enters as the abstract lookup. -/
def attachUser (lookup : String → LookupOutcome) (sess : Option SessionData) :
    AttachResult :=
  match sess with
  | none =>
    { isAuthenticated := false, currentUser := none, session := none,
      nextCalled := true }
  | some s =>
    match s.userId with
    | none =>
      { isAuthenticated := false, currentUser := none, session := some s,
        nextCalled := true }
    | some uid =>
      if uid = "" ∨ s.isAuthenticated = false then
        { isAuthenticated := false, currentUser := none, session := some s,
          nextCalled := true }
      else
        match lookup uid with
        | .ok (some u) =>
          { isAuthenticated := true, currentUser := some u,
            session := some { s with user := some u }, nextCalled := true }
        | .ok none =>
          { isAuthenticated := false, currentUser := none, session := none,
            nextCalled := true }
        | .err =>
          { isAuthenticated := false, currentUser := none, session := none,
            nextCalled := true }

/-- C6: attachUser never rejects a request. It always reaches next; an
authenticated session whose user still exists proceeds with that current user,
while a missing user or a failing lookup destroys the session and proceeds
anonymous. -/
theorem attachUser_fail_open (lookup : String → LookupOutcome)
    (sess : Option SessionData) (s : SessionData) (uid : String) (u : User) :
    (attachUser lookup sess).nextCalled = true ∧
    (sess = some s → s.userId = some uid → uid ≠ "" → s.isAuthenticated = true →
      (lookup uid = .ok (some u) →
        (attachUser lookup sess).isAuthenticated = true ∧
        (attachUser lookup sess).currentUser = some u) ∧
      (lookup uid = .ok none →
        (attachUser lookup sess).isAuthenticated = false ∧
        (attachUser lookup sess).currentUser = none ∧
        (attachUser lookup sess).session = none) ∧
      (lookup uid = .err →
        (attachUser lookup sess).isAuthenticated = false ∧
        (attachUser lookup sess).currentUser = none ∧
        (attachUser lookup sess).session = none)) := by
  constructor
  · rcases sess with _ | s'
    · rfl
    · rcases hid : s'.userId with _ | uid'
      · simp [attachUser, hid]
      · by_cases hc : uid' = "" ∨ s'.isAuthenticated = false
        · simp [attachUser, hid, hc]
        · rcases hl : lookup uid' with u' | _
          · rcases u' with _ | v <;> simp [attachUser, hid, hc, hl]
          · simp [attachUser, hid, hc, hl]
  · rintro rfl hid hne hauth
    have hc : ¬(uid = "" ∨ s.isAuthenticated = false) := by
      simp [hne, hauth]
    refine ⟨?_, ?_, ?_⟩ <;> intro hl <;> simp [attachUser, hid, hc, hl]

/-- A demonstration user for the closed witnesses. -/
def demoUser : User :=
  { id := "u1", email := "a@x.com", name := some "Ada", createdAt := 0 }

/-- An authenticated session pointing at the demonstration user. -/
def demoSession : SessionData :=
  { userId := some "u1", user := none, isAuthenticated := true }

/-- Closed witness for C6: a lookup that finds the user attaches it, a lookup
that misses destroys the session, and a failing lookup also destroys the
session; next runs in each case. -/
theorem attachUser_fail_open_witness :
    (attachUser (fun _ => .ok (some demoUser)) (some demoSession)).currentUser =
        some demoUser ∧
    (attachUser (fun _ => .ok none) (some demoSession)).session = none ∧
    (attachUser (fun _ => .err) (some demoSession)).session = none ∧
    (attachUser (fun _ => .err) (some demoSession)).nextCalled = true :=
  ⟨((attachUser_fail_open (fun _ => .ok (some demoUser)) (some demoSession)
      demoSession "u1" demoUser).2 rfl rfl (by decide) rfl).1 rfl |>.2,
   (((attachUser_fail_open (fun _ => .ok none) (some demoSession)
      demoSession "u1" demoUser).2 rfl rfl (by decide) rfl).2.1 rfl).2.2,
   (((attachUser_fail_open (fun _ => .err) (some demoSession)
      demoSession "u1" demoUser).2 rfl rfl (by decide) rfl).2.2 rfl).2.2,
   (attachUser_fail_open (fun _ => .err) (some demoSession)
      demoSession "u1" demoUser).1⟩

/-- One aggregated row of the launch-stats query: a service name with its
launch count and most recent launch instant. -/
structure LaunchStat where
  serviceName : String
  launchCount : Nat
  lastLaunched : Timestamp
deriving Repr, DecidableEq

/-- The caller's serviceLaunches rows: the where clause of the stats query. -/
def launchRows (db : DB) (e : String) : List ServiceLaunch :=
  db.serviceLaunches.filter (fun l => l.userEmail == e)

/-- SQL max over a group of instants (groups are never empty). -/
def maxLaunched : List Timestamp → Timestamp
  | [] => 0
  | t :: ts => ts.foldl max t

/-- A fold of max dominates its seed. -/
theorem le_foldl_max (ts : List Int) (t : Int) : t ≤ ts.foldl max t := by
  induction ts generalizing t with
  | nil => exact le_refl t
  | cons a as ih => exact le_trans (le_max_left t a) (ih (max t a))

/-- A fold of max dominates every list element. -/
theorem mem_le_foldl_max (ts : List Int) (t x : Int) (hx : x ∈ ts) :
    x ≤ ts.foldl max t := by
  induction ts generalizing t with
  | nil => cases hx
  | cons a as ih =>
    rcases List.mem_cons.mp hx with rfl | hmem
    · exact le_trans (le_max_right t x) (le_foldl_max as (max t x))
    · exact ih (max t a) hmem

/-- A fold of max is the seed or one of the list elements. -/
theorem foldl_max_mem (ts : List Int) (t : Int) :
    ts.foldl max t = t ∨ ts.foldl max t ∈ ts := by
  induction ts generalizing t with
  | nil => exact Or.inl rfl
  | cons a as ih =>
    rcases ih (max t a) with h | h
    · rcases max_choice t a with hm | hm
      · exact Or.inl (by rw [List.foldl_cons, h, hm])
      · exact Or.inr (by rw [List.foldl_cons, h, hm]; exact List.mem_cons_self a as)
    · exact Or.inr (List.mem_cons_of_mem a h)

/-- On a nonempty list, maxLaunched is an element and an upper bound. -/
theorem maxLaunched_spec {ts : List Timestamp} (hne : ts ≠ []) :
    maxLaunched ts ∈ ts ∧ ∀ x ∈ ts, x ≤ maxLaunched ts := by
  cases ts with
  | nil => exact absurd rfl hne
  | cons a as =>
    refine ⟨?_, ?_⟩
    · rcases foldl_max_mem as a with h | h
      · simp only [maxLaunched, h]
        exact List.mem_cons_self a as
      · simp only [maxLaunched]
        exact List.mem_cons_of_mem a h
    · intro x hx
      rcases List.mem_cons.mp hx with rfl | hmem
      · exact le_foldl_max as x
      · exact mem_le_foldl_max as a x hmem

/-- Comparator of the order-by clause: most recently launched first. -/
def byLastLaunchedDesc (a b : LaunchStat) : Prop :=
  b.lastLaunched ≤ a.lastLaunched

instance : DecidableRel byLastLaunchedDesc :=
  fun a b => inferInstanceAs (Decidable (b.lastLaunched ≤ a.lastLaunched))

instance : IsTotal LaunchStat byLastLaunchedDesc :=
  ⟨fun a b => le_total b.lastLaunched a.lastLaunched⟩

instance : IsTrans LaunchStat byLastLaunchedDesc :=
  ⟨fun _ _ _ h1 h2 => le_trans h2 h1⟩

/-- The aggregate row the stats query produces for one serviceName group:
count(*) and max(launchedAt) over the caller's rows with that name. -/
def statFor (db : DB) (e : String) (n : String) : LaunchStat :=
  { serviceName := n,
    launchCount := ((launchRows db e).filter (fun l => l.serviceName == n)).length,
    lastLaunched := maxLaunched (((launchRows db e).filter
      (fun l => l.serviceName == n)).map ServiceLaunch.launchedAt) }

/-- DatabaseStorage.getUserLaunchStats: group the caller's serviceLaunches
rows by serviceName, count each group and take max(launchedAt), ordered by
max(launchedAt) descending. -/
def getUserLaunchStats (db : DB) (e : String) : List LaunchStat :=
  (((launchRows db e).map ServiceLaunch.serviceName).dedup.map
    (statFor db e)).insertionSort byLastLaunchedDesc

/-- C7: getUserLaunchStats returns one entry per distinct serviceName among
the caller's launches; each entry counts exactly that group and carries the
group's maximal launchedAt, and the entries come sorted by lastLaunched
descending. -/
theorem getUserLaunchStats_spec (db : DB) (e : String) :
    (∀ st ∈ getUserLaunchStats db e,
      (∃ l ∈ launchRows db e, l.serviceName = st.serviceName) ∧
      st.launchCount =
        ((launchRows db e).filter (fun l => l.serviceName == st.serviceName)).length ∧
      st.lastLaunched ∈
        ((launchRows db e).filter
          (fun l => l.serviceName == st.serviceName)).map ServiceLaunch.launchedAt ∧
      ∀ l ∈ (launchRows db e).filter (fun l => l.serviceName == st.serviceName),
        l.launchedAt ≤ st.lastLaunched) ∧
    (∀ l ∈ launchRows db e, ∃ st ∈ getUserLaunchStats db e,
      st.serviceName = l.serviceName) ∧
    List.Pairwise (fun a b => a.serviceName ≠ b.serviceName)
      (getUserLaunchStats db e) ∧
    (getUserLaunchStats db e).Sorted byLastLaunchedDesc := by
  refine ⟨?_, ?_, ?_, List.sorted_insertionSort byLastLaunchedDesc _⟩
  · intro st hst
    rw [getUserLaunchStats, List.mem_insertionSort] at hst
    rcases List.mem_map.mp hst with ⟨n, hn, rfl⟩
    rcases List.mem_map.mp (List.mem_dedup.mp hn) with ⟨l0, hl0, rfl⟩
    have hl0g : l0 ∈ (launchRows db e).filter
        (fun l => l.serviceName == l0.serviceName) :=
      List.mem_filter.mpr ⟨hl0, by simp⟩
    have hgne : ((launchRows db e).filter
        (fun l => l.serviceName == l0.serviceName)).map ServiceLaunch.launchedAt ≠ [] := by
      simp only [ne_eq, List.map_eq_nil_iff]
      exact List.ne_nil_of_mem hl0g
    rcases maxLaunched_spec hgne with ⟨hmem, hub⟩
    refine ⟨⟨l0, hl0, rfl⟩, rfl, hmem, ?_⟩
    intro l hl
    exact hub l.launchedAt (List.mem_map_of_mem ServiceLaunch.launchedAt hl)
  · intro l hl
    refine ⟨statFor db e l.serviceName, ?_, rfl⟩
    rw [getUserLaunchStats, List.mem_insertionSort]
    exact List.mem_map_of_mem _
      (List.mem_dedup.mpr (List.mem_map_of_mem ServiceLaunch.serviceName hl))
  · rw [getUserLaunchStats]
    apply (List.Perm.pairwise_iff ?_ (List.perm_insertionSort byLastLaunchedDesc _)).mpr
    · apply List.Pairwise.map
      · intro a b hab
        exact hab
      · exact List.Pairwise.imp (fun hab => hab)
          (List.nodup_dedup ((launchRows db e).map ServiceLaunch.serviceName))
    · intro a b hab
      exact fun h => hab h.symm

/-- Demonstration launches: two Netflix launches and one Spotify launch by the
same owner. -/
def demoLaunchDB : DB :=
  { users := [], subscriptions := [], availableServices := [],
    serviceLaunches :=
      [{ id := "l1", subscriptionId := "s1", userEmail := "a@x.com",
         serviceName := "Netflix", launchedAt := 100 },
       { id := "l2", subscriptionId := "s1", userEmail := "a@x.com",
         serviceName := "Netflix", launchedAt := 300 },
       { id := "l3", subscriptionId := "s2", userEmail := "a@x.com",
         serviceName := "Spotify", launchedAt := 200 }] }

/-- Closed witness for C7: the Netflix entry of the demonstration stats counts
its group and carries a launchedAt drawn from the group. -/
theorem getUserLaunchStats_spec_witness :
    (statFor demoLaunchDB "a@x.com" "Netflix").launchCount =
      ((launchRows demoLaunchDB "a@x.com").filter
        (fun l => l.serviceName ==
          (statFor demoLaunchDB "a@x.com" "Netflix").serviceName)).length ∧
    (statFor demoLaunchDB "a@x.com" "Netflix").lastLaunched ∈
      ((launchRows demoLaunchDB "a@x.com").filter
        (fun l => l.serviceName ==
          (statFor demoLaunchDB "a@x.com" "Netflix").serviceName)).map
        ServiceLaunch.launchedAt :=
  ⟨((getUserLaunchStats_spec demoLaunchDB "a@x.com").1
      (statFor demoLaunchDB "a@x.com" "Netflix") (by decide)).2.1,
   ((getUserLaunchStats_spec demoLaunchDB "a@x.com").1
      (statFor demoLaunchDB "a@x.com" "Netflix") (by decide)).2.2.1⟩

/-- Leap year of the proleptic Gregorian calendar, as JavaScript Date uses. -/
def isLeapYear (y : Int) : Bool :=
  y % 4 == 0 && (y % 100 != 0 || y % 400 == 0)

/-- Calendar date as a JavaScript Date holds it: the month is 0-based. -/
structure DateJS where
  year : Int
  month : Int
  day : Int
deriving Repr, DecidableEq

/-- Length of a month (0-based month index). -/
def daysInMonth (y m : Int) : Int :=
  if m = 1 then (if isLeapYear y then 29 else 28)
  else if m = 3 ∨ m = 5 ∨ m = 8 ∨ m = 10 then 30
  else 31

/-- Carry an overflowed month index into the year, as Date.setMonth
normalization does; one step suffices for a single month increment. -/
def normMonth (d : DateJS) : DateJS :=
  if 12 ≤ d.month then { year := d.year + 1, month := d.month - 12, day := d.day }
  else d

/-- Carry an overflowed day-of-month into the next month, as Date
normalization does; one step suffices since a valid day-of-month exceeds the
target month's length by at most three days. -/
def normDay (d : DateJS) : DateJS :=
  if daysInMonth d.year d.month < d.day then
    normMonth { year := d.year, month := d.month + 1,
                day := d.day - daysInMonth d.year d.month }
  else d

/-- renewalDate.setMonth(renewalDate.getMonth() + 1) of the subscribe
handler. -/
def addOneMonthJS (d : DateJS) : DateJS :=
  normDay (normMonth { d with month := d.month + 1 })

/-- renewalDate.setFullYear(renewalDate.getFullYear() + 1) of the subscribe
handler. -/
def addOneYearJS (d : DateJS) : DateJS :=
  normDay { d with year := d.year + 1 }

/-- Days between a civil date and 1970-01-01 (Howard Hinnant's
days_from_civil, adapted to the 0-based month). -/
def daysFromCivil (d : DateJS) : Int :=
  let m := d.month + 1
  let y := if m ≤ 2 then d.year - 1 else d.year
  let era := (if 0 ≤ y then y else y - 399).ediv 400
  let yoe := y - era * 400
  let mp := (m + 9).emod 12
  let doy := (153 * mp + 2).ediv 5 + d.day - 1
  let doe := yoe * 365 + yoe.ediv 4 - yoe.ediv 100 + doy
  era * 146097 + doe - 719468

/-- Instant of a civil date at UTC midnight, matching Date.getTime and the
toISOString round trip through new Date. -/
def dateToMs (d : DateJS) : Timestamp := daysFromCivil d * msPerDay

/-- Insert payload of subscriptions (insertSubscriptionSchema: the id and
userEmail columns are omitted). The source carries renewalDate and
expirationDate as ISO-8601 strings that createSubscription parses back with
new Date; since toISOString and new Date round-trip the instant, the
embedding carries the instants directly. -/
structure InsertSubscription where
  name : String
  category : String
  cost : String
  billingCycle : String
  renewalDate : Timestamp
  expirationDate : Option Timestamp
  status : String
  logoUrl : Option String
  description : Option String
  lastUsed : Option Timestamp
deriving Repr, DecidableEq

/-- Modelled from the spec: the owner argument of createSubscription.
routes.ts calls storage.createSubscription(data, currentUser.email) and notes
that userEmail is added by storage (spec 4.2: writes are always scoped by
ownerEmail), while the DatabaseStorage.createSubscription signature in the
sources takes the data alone; the embedding takes the owner explicitly. The
rest follows DatabaseStorage.createSubscription: parse the dates, stamp
lastUsed with the clock, insert the row. The generated id and the clock read
enter as parameters. -/
def createSubscription (db : DB) (newId : String) (now : Timestamp)
    (data : InsertSubscription) (userEmail : String) : Subscription × DB :=
  let sub : Subscription :=
    { id := newId, name := data.name, category := data.category,
      cost := data.cost, billingCycle := data.billingCycle,
      renewalDate := data.renewalDate, expirationDate := data.expirationDate,
      status := data.status, logoUrl := data.logoUrl,
      description := data.description, lastUsed := some now,
      userEmail := userEmail }
  (sub, { db with subscriptions := db.subscriptions ++ [sub] })

/-- DatabaseStorage.getAvailableService: the catalog row with the given id. -/
def getAvailableService (db : DB) (id : String) : Option AvailableService :=
  db.availableServices.find? (fun s => s.id == id)

/-- Responses of the subscribe handler. -/
inductive SubscribeResp
  | badRequest
  | serviceNotFound
  | planNotFound
  | created (sub : Subscription)
deriving Repr, DecidableEq

/-- POST /api/subscriptions/subscribe handler (server/routes.ts): resolve the
service and its plan, compute renewal and expiration as now plus one year
(annual) or one month (otherwise), synthesize the subscription payload from
the service and plan, and create it for the caller. The clock read enters as
now (its calendar part) and nowMs (the instant); the generated row id as
newId. -/
def subscribeHandler (db : DB) (currentUserEmail : String) (now : DateJS)
    (nowMs : Timestamp) (newId : String) (serviceId planId : String) :
    SubscribeResp × DB :=
  if serviceId = "" ∨ planId = "" then (.badRequest, db)
  else
    match getAvailableService db serviceId with
    | none => (.serviceNotFound, db)
    | some service =>
      match service.plans.find? (fun p => p.id == planId) with
      | none => (.planNotFound, db)
      | some selectedPlan =>
        let renewalDate :=
          if selectedPlan.billingCycle = "annual" then addOneYearJS now
          else addOneMonthJS now
        let expirationDate :=
          if selectedPlan.billingCycle = "annual" then addOneYearJS now
          else addOneMonthJS now
        let r := createSubscription db newId nowMs
          { name := service.name ++ " - " ++ selectedPlan.name,
            category := service.category,
            cost := selectedPlan.price,
            billingCycle := selectedPlan.billingCycle,
            renewalDate := dateToMs renewalDate,
            expirationDate := some (dateToMs expirationDate),
            status := "active",
            logoUrl := some service.logoUrl,
            description := some service.description,
            lastUsed := none }
          currentUserEmail
        (.created r.1, r.2)

/-- The row a successful subscribe creates, spelled out. -/
def subscribedRow (sv : AvailableService) (pl : PricingPlan) (now : DateJS)
    (nowMs : Timestamp) (newId : String) (e : String) : Subscription :=
  { id := newId, name := sv.name ++ " - " ++ pl.name, category := sv.category,
    cost := pl.price, billingCycle := pl.billingCycle,
    renewalDate := dateToMs (if pl.billingCycle = "annual"
      then addOneYearJS now else addOneMonthJS now),
    expirationDate := some (dateToMs (if pl.billingCycle = "annual"
      then addOneYearJS now else addOneMonthJS now)),
    status := "active", logoUrl := some sv.logoUrl,
    description := some sv.description, lastUsed := some nowMs, userEmail := e }

/-- C3: a subscribe with a known service and plan creates one subscription
whose renewalDate and expirationDate both equal now plus one month for a
monthly plan and now plus one year for an annual plan; an unknown service or
plan answers 404 and creates nothing. -/
theorem subscribe_dates_and_not_found (db : DB) (e : String) (now : DateJS)
    (nowMs : Timestamp) (newId : String) (sid pid : String)
    (sv : AvailableService) (pl : PricingPlan) :
    (sid ≠ "" → pid ≠ "" → getAvailableService db sid = none →
      subscribeHandler db e now nowMs newId sid pid = (.serviceNotFound, db)) ∧
    (sid ≠ "" → pid ≠ "" → getAvailableService db sid = some sv →
      sv.plans.find? (fun p => p.id == pid) = none →
      subscribeHandler db e now nowMs newId sid pid = (.planNotFound, db)) ∧
    (sid ≠ "" → pid ≠ "" → getAvailableService db sid = some sv →
      sv.plans.find? (fun p => p.id == pid) = some pl →
      ∃ sub, subscribeHandler db e now nowMs newId sid pid =
          (.created sub, { db with subscriptions := db.subscriptions ++ [sub] }) ∧
        sub.renewalDate = dateToMs (if pl.billingCycle = "annual"
          then addOneYearJS now else addOneMonthJS now) ∧
        sub.expirationDate = some (dateToMs (if pl.billingCycle = "annual"
          then addOneYearJS now else addOneMonthJS now)) ∧
        sub.userEmail = e) := by
  refine ⟨?_, ?_, ?_⟩
  · intro hs hp hnone
    simp [subscribeHandler, hs, hp, hnone]
  · intro hs hp hsv hplan
    simp [subscribeHandler, hs, hp, hsv, hplan]
  · intro hs hp hsv hplan
    refine ⟨subscribedRow sv pl now nowMs newId e, ?_, rfl, rfl, rfl⟩
    simp [subscribeHandler, hs, hp, hsv, hplan, createSubscription, subscribedRow]

/-- A monthly 9.99 plan for the demonstration marketplace. -/
def demoPlanMonthly : PricingPlan :=
  { id := "p-m", name := "Basic", price := "9.99", billingCycle := "monthly",
    features := [] }

/-- A demonstration catalog service carrying the monthly plan. -/
def demoService : AvailableService :=
  { id := "svc1", name := "Netflix", category := "Streaming",
    logoUrl := "logo.png", description := "Streaming service",
    basePrice := "9.99", plans := [demoPlanMonthly], isPopular := true,
    features := [], launchUrl := none, createdAt := 0 }

/-- A marketplace-only table for the subscribe witness. -/
def marketDB : DB :=
  { users := [], subscriptions := [], availableServices := [demoService],
    serviceLaunches := [] }

/-- Closed witness for C3: subscribing to the monthly plan on 2025-01-01
creates the synthesized subscription, whose renewalDate and expirationDate
are both 2025-02-01; an unknown service id answers 404 leaving the table
unchanged. -/
theorem subscribe_dates_and_not_found_witness :
    subscribeHandler marketDB "a@x.com" ⟨2025, 0, 1⟩ 1735689600000 "n1"
        "svc1" "p-m" =
      (.created (subscribedRow demoService demoPlanMonthly ⟨2025, 0, 1⟩
          1735689600000 "n1" "a@x.com"),
       { marketDB with subscriptions := marketDB.subscriptions ++
          [subscribedRow demoService demoPlanMonthly ⟨2025, 0, 1⟩ 1735689600000
            "n1" "a@x.com"] }) ∧
    (subscribedRow demoService demoPlanMonthly ⟨2025, 0, 1⟩ 1735689600000 "n1"
        "a@x.com").renewalDate = dateToMs ⟨2025, 1, 1⟩ ∧
    (subscribedRow demoService demoPlanMonthly ⟨2025, 0, 1⟩ 1735689600000 "n1"
        "a@x.com").expirationDate = some (dateToMs ⟨2025, 1, 1⟩) ∧
    subscribeHandler marketDB "a@x.com" ⟨2025, 0, 1⟩ 1735689600000 "n1"
        "nosvc" "p-m" =
      (.serviceNotFound, marketDB) := by
  refine ⟨rfl, by decide, by decide, ?_⟩
  exact (subscribe_dates_and_not_found marketDB "a@x.com" ⟨2025, 0, 1⟩
    1735689600000 "n1" "nosvc" "p-m" demoService demoPlanMonthly).1
    (by decide) (by decide) rfl

/-- Value of a digit run, most significant first. -/
def digitsVal (cs : List Char) : Nat :=
  cs.foldl (fun n c => n * 10 + (c.toNat - 48)) 0

/-- JavaScript parseInt restricted to plain decimal input: skip spaces, take
an optional sign and the longest digit prefix; none models NaN. -/
def parseIntJS (s : String) : Option Int :=
  let cs := s.data.dropWhile (fun c => c = ' ')
  let signed : Int × List Char :=
    match cs with
    | '-' :: t => (-1, t)
    | '+' :: t => (1, t)
    | _ => (1, cs)
  let ds := signed.2.takeWhile Char.isDigit
  if ds.isEmpty then none else some (signed.1 * (digitsVal ds : Int))

/-- The days computation of GET /api/subscriptions/expiring:
parseInt(req.query.days) || 30, where || also replaces a parsed 0. A missing
query parameter parses to NaN (none). -/
def effectiveDays (daysQuery : Option String) : Int :=
  match daysQuery.bind parseIntJS with
  | some d => if d = 0 then 30 else d
  | none => 30

/-- GET /api/subscriptions/expiring handler: the owner-scoped window query at
the effective daysAhead. -/
def expiringHandler (db : DB) (currentUserEmail : String) (today : Timestamp)
    (daysQuery : Option String) : List Subscription :=
  getExpiringSubscriptions db currentUserEmail (effectiveDays daysQuery) today

/-- C9: the expiring route passes daysAhead = 30 when the days parameter is
absent and whenever parseInt yields NaN or 0; in particular days=0 returns
the full 30-day window. -/
theorem expiring_days_defaulting (db : DB) (e : String) (today : Timestamp)
    (s : String) :
    effectiveDays none = 30 ∧
    (parseIntJS s = none ∨ parseIntJS s = some 0 →
      effectiveDays (some s) = 30) ∧
    parseIntJS "0" = some 0 ∧
    expiringHandler db e today (some "0") =
      getExpiringSubscriptions db e 30 today := by
  refine ⟨rfl, ?_, by decide, ?_⟩
  · rintro (h | h) <;> simp [effectiveDays, h]
  · have h0 : effectiveDays (some "0") = 30 := by decide
    rw [expiringHandler, h0]

/-- Closed witness for C9: a non-numeric days string and the string "0" both
fall back to the 30-day window. -/
theorem expiring_days_defaulting_witness :
    effectiveDays (some "abc") = 30 ∧
    expiringHandler demoDB "a@x.com" 1735689600000 (some "0") =
      getExpiringSubscriptions demoDB "a@x.com" 30 1735689600000 :=
  ⟨(expiring_days_defaulting demoDB "a@x.com" 1735689600000 "abc").2.1
      (Or.inl (by decide)),
   (expiring_days_defaulting demoDB "a@x.com" 1735689600000 "abc").2.2.2⟩

/-- JavaScript String.includes: substring containment (every string contains
the empty string). -/
def includesSub (hay needle : String) : Bool :=
  needle == "" || decide (1 < (hay.splitOn needle).length)

/-- JavaScript parseFloat restricted to plain decimal literals: skip spaces,
optional sign, digits with an optional fractional part; none models NaN. -/
def parseFloatJS (s : String) : Option ℚ :=
  let cs := s.data.dropWhile (fun c => c = ' ')
  let signed : ℚ × List Char :=
    match cs with
    | '-' :: t => (-1, t)
    | '+' :: t => (1, t)
    | _ => (1, cs)
  let intPart := signed.2.takeWhile Char.isDigit
  let rest := signed.2.dropWhile Char.isDigit
  let fracPart :=
    match rest with
    | '.' :: t => t.takeWhile Char.isDigit
    | _ => []
  if intPart.isEmpty && fracPart.isEmpty then none
  else some (signed.1 *
    ((digitsVal intPart : ℚ) + (digitsVal fracPart : ℚ) / 10 ^ fracPart.length))

/-- NaN-aware strict less-than: a NaN cost fails every comparison. -/
def nanLt (c : Option ℚ) (x : ℚ) : Bool :=
  match c with
  | some v => decide (v < x)
  | none => false

/-- NaN-aware less-or-equal. -/
def nanLe (c : Option ℚ) (x : ℚ) : Bool :=
  match c with
  | some v => decide (v ≤ x)
  | none => false

/-- NaN-aware greater-or-equal. -/
def nanGe (c : Option ℚ) (x : ℚ) : Bool :=
  match c with
  | some v => decide (x ≤ v)
  | none => false

/-- NaN-aware strict greater-than. -/
def nanGt (c : Option ℚ) (x : ℚ) : Bool :=
  match c with
  | some v => decide (x < v)
  | none => false

/-- One arm of the cost-range switch in the Dashboard's filteredSubscriptions;
an unknown range string falls to the default case and matches. -/
def matchesCostRange (cost : Option ℚ) (range : String) : Bool :=
  if range = "under-10" then nanLt cost 10
  else if range = "10-25" then nanGe cost 10 && nanLe cost 25
  else if range = "25-50" then nanGe cost 25 && nanLe cost 50
  else if range = "over-50" then nanGt cost 50
  else true

/-- The Dashboard's filter state. -/
structure Filters where
  search : String
  category : String
  costRange : List String
  status : List String
  renewalDate : String
deriving Repr, DecidableEq

/-- Math.ceil of a division by a positive divisor, over integers. -/
def ceilDiv (a b : Int) : Int := (a + b - 1).ediv b

/-- The filter callback of the Dashboard's filteredSubscriptions: search
substring, category equality, status-set membership, cost-bucket membership
over the parsed cost, and renewal-window membership, in source order. -/
def subscriptionFilter (filters : Filters) (now : Timestamp)
    (sub : Subscription) : Bool :=
  if filters.search != "" &&
      !includesSub sub.name.toLower filters.search.toLower then false
  else if filters.category != "" && filters.category != "all" &&
      sub.category != filters.category then false
  else if decide (0 < filters.status.length) &&
      !(filters.status.contains sub.status) then false
  else if decide (0 < filters.costRange.length) &&
      !(filters.costRange.any
        (fun r => matchesCostRange (parseFloatJS sub.cost) r)) then false
  else if filters.renewalDate != "" then
    let daysDiff := ceilDiv (sub.renewalDate - now) msPerDay
    if filters.renewalDate == "next-7" then decide (daysDiff ≤ 7 ∧ 0 ≤ daysDiff)
    else if filters.renewalDate == "next-30" then decide (daysDiff ≤ 30 ∧ 0 ≤ daysDiff)
    else if filters.renewalDate == "next-90" then decide (daysDiff ≤ 90 ∧ 0 ≤ daysDiff)
    else true
  else true

/-- Dashboard filteredSubscriptions: the cached list filtered client-side. -/
def filteredSubscriptions (filters : Filters) (now : Timestamp)
    (subs : List Subscription) : List Subscription :=
  subs.filter (subscriptionFilter filters now)

/-- A filter state selecting only cost ranges, every other filter neutral. -/
def costOnlyFilters (cr : List String) : Filters :=
  { search := "", category := "", costRange := cr, status := [],
    renewalDate := "" }

/-- The claim's reading of one cost bucket, stated over the parsed cost. -/
def inCostBucket (c : ℚ) (range : String) : Prop :=
  (range = "under-10" ∧ c < 10) ∨ (range = "10-25" ∧ 10 ≤ c ∧ c ≤ 25) ∨
  (range = "25-50" ∧ 25 ≤ c ∧ c ≤ 50) ∨ (range = "over-50" ∧ 50 < c)

/-- On the four known range strings, the source's switch agrees with the
claim's bucket predicate; a NaN cost matches none of them. -/
theorem matchesCostRange_known (c : Option ℚ) (r : String)
    (hr : r = "under-10" ∨ r = "10-25" ∨ r = "25-50" ∨ r = "over-50") :
    matchesCostRange c r = true ↔ ∃ v, c = some v ∧ inCostBucket v r := by
  rcases hr with rfl | rfl | rfl | rfl <;> cases c <;>
    simp [matchesCostRange, nanLt, nanLe, nanGe, nanGt, inCostBucket]

/-- Demonstration subscriptions with costs 5, 15 and 60. -/
def demoSub5 : Subscription :=
  { demoSub with id := "c5", cost := "5" }

/-- The cost-15 demonstration subscription. -/
def demoSub15 : Subscription :=
  { demoSub with id := "c15", cost := "15" }

/-- The cost-60 demonstration subscription. -/
def demoSub60 : Subscription :=
  { demoSub with id := "c60", cost := "60" }

/-- With only cost ranges selected (and something selected), the Dashboard
filter reduces to the cost-range clause alone. -/
theorem subscriptionFilter_costOnly (cr : List String) (now : Timestamp)
    (sub : Subscription) (hne : cr ≠ []) :
    subscriptionFilter (costOnlyFilters cr) now sub =
      cr.any (fun r => matchesCostRange (parseFloatJS sub.cost) r) := by
  have hlen : decide (0 < cr.length) = true := by
    simpa [List.length_pos] using hne
  cases hany : cr.any (fun r => matchesCostRange (parseFloatJS sub.cost) r) <;>
    simp [subscriptionFilter, costOnlyFilters, hany, hlen]

/-- The parsed demonstration costs. -/
theorem parse_demo_costs :
    parseFloatJS "5" = some 5 ∧ parseFloatJS "15" = some 15 ∧
    parseFloatJS "60" = some 60 := by
  refine ⟨?_, ?_, ?_⟩ <;> simp [parseFloatJS, digitsVal]

/-- C8: with cost ranges selected, the Dashboard filter keeps a subscription
exactly when its parsed cost falls in at least one selected bucket; filtering
costs 5, 15, 60 by under-10 and over-50 keeps exactly the 5 and 60 entries. -/
theorem costRange_filter_spec :
    (∀ (cr : List String) (now : Timestamp) (sub : Subscription),
      (∀ r ∈ cr, r = "under-10" ∨ r = "10-25" ∨ r = "25-50" ∨ r = "over-50") →
      cr ≠ [] →
      (subscriptionFilter (costOnlyFilters cr) now sub = true ↔
        ∃ r ∈ cr, ∃ v, parseFloatJS sub.cost = some v ∧ inCostBucket v r)) ∧
    filteredSubscriptions (costOnlyFilters ["under-10", "over-50"]) 0
      [demoSub5, demoSub15, demoSub60] = [demoSub5, demoSub60] := by
  constructor
  · intro cr now sub hcr hne
    rw [subscriptionFilter_costOnly cr now sub hne, List.any_eq_true]
    constructor
    · rintro ⟨r, hrmem, hr⟩
      rcases (matchesCostRange_known _ r (hcr r hrmem)).mp hr with ⟨v, hv, hb⟩
      exact ⟨r, hrmem, v, hv, hb⟩
    · rintro ⟨r, hrmem, v, hv, hb⟩
      exact ⟨r, hrmem, (matchesCostRange_known _ r (hcr r hrmem)).mpr ⟨v, hv, hb⟩⟩
  · have e5 : subscriptionFilter (costOnlyFilters ["under-10", "over-50"]) 0
        demoSub5 = true := by
      rw [subscriptionFilter_costOnly _ _ _ (by decide)]
      have h := parse_demo_costs.1
      simp [demoSub5, demoSub, h, matchesCostRange, nanLt, nanGt]
      norm_num
    have e15 : subscriptionFilter (costOnlyFilters ["under-10", "over-50"]) 0
        demoSub15 = false := by
      rw [subscriptionFilter_costOnly _ _ _ (by decide)]
      have h := parse_demo_costs.2.1
      simp [demoSub15, demoSub, h, matchesCostRange, nanLt, nanGt]
      norm_num
    have e60 : subscriptionFilter (costOnlyFilters ["under-10", "over-50"]) 0
        demoSub60 = true := by
      rw [subscriptionFilter_costOnly _ _ _ (by decide)]
      have h := parse_demo_costs.2.2
      simp [demoSub60, demoSub, h, matchesCostRange, nanLt, nanGt]
      norm_num
    simp [filteredSubscriptions, List.filter, e5, e15, e60]

/-- Closed witness for C8: the cost-5 entry passes the under-10 or over-50
selection. -/
theorem costRange_filter_spec_witness :
    subscriptionFilter (costOnlyFilters ["under-10", "over-50"]) 0 demoSub5 = true :=
  (costRange_filter_spec.1 ["under-10", "over-50"] 0 demoSub5
      (by decide) (by decide)).mpr
    ⟨"under-10", by simp, 5,
      by simpa [demoSub5, demoSub] using parse_demo_costs.1,
      Or.inl ⟨rfl, by norm_num⟩⟩

/-- Patch payload of PATCH /api/subscriptions/:id, validated by
insertSubscriptionSchema.partial(): id and userEmail stay omitted by the
schema and every remaining field becomes optional. Nullable columns
distinguish an absent field (outer none) from an explicit null (inner none);
the date fields arrive as strings. -/
structure InsertSubscriptionPatch where
  name : Option String
  category : Option String
  cost : Option String
  billingCycle : Option String
  renewalDate : Option String
  expirationDate : Option String
  status : Option String
  logoUrl : Option (Option String)
  description : Option (Option String)
  lastUsed : Option (Option Timestamp)
deriving Repr, DecidableEq

/-- Effect of the drizzle update set on one row: fields present in
processedData overwrite the stored value, absent (undefined) fields keep it.
renewalDate and expirationDate are parsed from their strings only when
present and truthy (the JavaScript test updateData.renewalDate ? ... :
undefined), with parseDate standing for new Date. -/
def applyUpdate (parseDate : String → Timestamp) (upd : InsertSubscriptionPatch)
    (row : Subscription) : Subscription :=
  { row with
    name := upd.name.getD row.name
    category := upd.category.getD row.category
    cost := upd.cost.getD row.cost
    billingCycle := upd.billingCycle.getD row.billingCycle
    status := upd.status.getD row.status
    logoUrl := upd.logoUrl.getD row.logoUrl
    description := upd.description.getD row.description
    lastUsed := upd.lastUsed.getD row.lastUsed
    renewalDate :=
      match upd.renewalDate with
      | some s => if s = "" then row.renewalDate else parseDate s
      | none => row.renewalDate
    expirationDate :=
      match upd.expirationDate with
      | some s => if s = "" then row.expirationDate else some (parseDate s)
      | none => row.expirationDate }

/-- DatabaseStorage.updateSubscription: set the processed patch on the rows
matching both the id and the caller's email, returning the first updated
row. -/
def updateSubscription (parseDate : String → Timestamp) (db : DB) (id : String)
    (upd : InsertSubscriptionPatch) (userEmail : String) :
    Option Subscription × DB :=
  (((db.subscriptions.filter
      (fun s => s.id == id && s.userEmail == userEmail)).head?).map
    (applyUpdate parseDate upd),
   { db with subscriptions := db.subscriptions.map (fun s =>
      if s.id == id && s.userEmail == userEmail then applyUpdate parseDate upd s
      else s) })

/-- Responses of the PATCH handler. -/
inductive UpdateResp
  | notFound
  | ok (sub : Subscription)
deriving Repr, DecidableEq

/-- PATCH /api/subscriptions/:id handler over an already-validated body:
404 when no owned row matched, 200 with the updated row otherwise. -/
def updateSubscriptionHandler (parseDate : String → Timestamp) (db : DB)
    (currentUserEmail : String) (id : String) (body : InsertSubscriptionPatch) :
    UpdateResp × DB :=
  match updateSubscription parseDate db id body currentUserEmail with
  | (none, db2) => (.notFound, db2)
  | (some sub, db2) => (.ok sub, db2)

/-- C10: a validated PATCH can never re-key a subscription or transfer it to
another owner: every row of the updated table keeps its id and userEmail, the
returned updated row carries the requested id and the caller's email, and
applying the patch to any row leaves id and userEmail untouched. -/
theorem patch_preserves_id_and_owner (parseDate : String → Timestamp) (db : DB)
    (e i : String) (body : InsertSubscriptionPatch) :
    ((updateSubscription parseDate db i body e).2.subscriptions.map
        (fun s => (s.id, s.userEmail))) =
      db.subscriptions.map (fun s => (s.id, s.userEmail)) ∧
    (∀ sub, (updateSubscription parseDate db i body e).1 = some sub →
      sub.id = i ∧ sub.userEmail = e) ∧
    (∀ row ∈ db.subscriptions,
      (applyUpdate parseDate body row).id = row.id ∧
      (applyUpdate parseDate body row).userEmail = row.userEmail) := by
  refine ⟨?_, ?_, fun row _ => ⟨rfl, rfl⟩⟩
  · simp only [updateSubscription, List.map_map]
    apply List.map_congr_left
    intro s _
    simp only [Function.comp]
    by_cases h : (s.id == i && s.userEmail == e) = true
    · rw [if_pos h]
      rfl
    · rw [if_neg h]
  · intro sub hsub
    simp only [updateSubscription, Option.map_eq_some'] at hsub
    rcases hsub with ⟨s, hs, rfl⟩
    have hmem : s ∈ db.subscriptions.filter
        (fun s => s.id == i && s.userEmail == e) := by
      cases hh : db.subscriptions.filter (fun s => s.id == i && s.userEmail == e) with
      | nil => rw [hh] at hs; cases hs
      | cons a t =>
        rw [hh] at hs
        simp only [List.head?_cons, Option.some.injEq] at hs
        subst hs
        exact hh.symm ▸ List.mem_cons_self a t
    rcases List.mem_filter.mp hmem with ⟨_, hp⟩
    simp only [Bool.and_eq_true, beq_iff_eq] at hp
    exact ⟨hp.1, hp.2⟩

/-- A patch renaming the subscription, every other field absent. -/
def demoPatch : InsertSubscriptionPatch :=
  { name := some "Netflix Premium", category := none, cost := none,
    billingCycle := none, renewalDate := none, expirationDate := none,
    status := none, logoUrl := none, description := none, lastUsed := none }

/-- Closed witness for C10: patching the demonstration row's name returns a
row that keeps its id and owner. -/
theorem patch_preserves_id_and_owner_witness :
    (applyUpdate (fun _ => 0) demoPatch demoSub).id = "s1" ∧
    (applyUpdate (fun _ => 0) demoPatch demoSub).userEmail = "a@x.com" :=
  (patch_preserves_id_and_owner (fun _ => 0) demoDB "a@x.com" "s1" demoPatch).2.1
    (applyUpdate (fun _ => 0) demoPatch demoSub) (by decide)

end SubscriptionHub
